import Mathlib

/-!
Shallow embedding of FmpDevicePkg/Library/FmpPayloadHeaderLibV1/FmpPayloadHeaderLib.c.

The C unit provides three accessors over a packed FMP payload header
(GetFmpPayloadHeaderSize, GetFmpPayloadHeaderVersion,
GetFmpPayloadHeaderLowestSupportedVersion) and a dependency evaluator
(VerifyFmpPayloadDependencies).

Modelling conventions:
- A caller buffer is a byte list (each element < 256 in intended use); field reads
  go through List.get? at explicit little-endian offsets, so a read past the end of
  the buffer yields none.  A result of none for a whole operation models undefined
  behaviour (an out-of-bounds read or a write through a null pointer), which the C
  code can reach because VerifyFmpPayloadDependencies receives no buffer length.
- Nullable pointers are Option: the Header argument is Option (List Nat); the
  output slots (Size / Version / LowestSupportedVersion / Verified) are Option
  values holding the slot contents, none meaning a NULL pointer.
- EFI_STATUS values are Nat; error codes carry bit 63 (EFI_ERROR tests 2^63 <= s).
- UINTN pointer arithmetic in the accessors is modelled on the numeric address of
  the Header pointer (addr, a UINTN value, so callers instantiate addr < 2^64),
  with the additions reduced mod 2^64 exactly as the C comparisons behave.
- GetFmpAndDescriptor (FmpHelperLib, the Component Resolver collaborator, outside
  this unit) is a parameter: it maps the 16 GUID bytes and the image index either
  to Except.ok version (returning EFI_SUCCESS, allocating one descriptor that the
  caller must FreePool) or to Except.error status (descriptor pointer unchanged).
  The state tracks resolver calls, successful acquisitions and the FmpDesc
  pointer; the single FreePool at the shared EXIT label is the one release.
- The C source reads the signature field through the name Identifier at line 248;
  the struct's offset-0 field is Signature, and the read is modelled at offset 0.
-/

/-- SIGNATURE_32 of the characters M, S, S, 1: the FMP payload header signature. -/
def FMP_PAYLOAD_HEADER_SIGNATURE : Nat := 0x3153534D

/-- EFI_SUCCESS status code. -/
def EFI_SUCCESS : Nat := 0

/-- EFI_INVALID_PARAMETER status code (MAX_BIT | 2). -/
def EFI_INVALID_PARAMETER : Nat := 2 ^ 63 + 2

/-- EFI_NOT_FOUND status code (MAX_BIT | 14), a typical resolver failure. -/
def EFI_NOT_FOUND : Nat := 2 ^ 63 + 14

/-- sizeof(FMP_PAYLOAD_HEADER): four packed UINT32 fields. -/
def sizeofFmpPayloadHeader : Nat := 16

/-- sizeof(FW_DEPENDENCY): GUID (16) + UINT32 + UINT8 + UINT8 + UINT16, packed. -/
def sizeofFwDependency : Nat := 24

/-- Read one byte of the buffer; none when the offset is out of bounds. -/
def readU8 (buf : List Nat) (off : Nat) : Option Nat := buf.get? off

/-- Little-endian 16-bit read at a byte offset; none when out of bounds. -/
def readU16 (buf : List Nat) (off : Nat) : Option Nat :=
  match buf.get? off, buf.get? (off + 1) with
  | some b0, some b1 => some (b0 + 256 * b1)
  | _, _ => none

/-- Little-endian 32-bit read at a byte offset; none when out of bounds. -/
def readU32 (buf : List Nat) (off : Nat) : Option Nat :=
  match buf.get? off, buf.get? (off + 1), buf.get? (off + 2), buf.get? (off + 3) with
  | some b0, some b1, some b2, some b3 =>
      some (b0 + 256 * b1 + 65536 * b2 + 16777216 * b3)
  | _, _, _, _ => none

/-- Read n raw bytes starting at a byte offset; none when any is out of bounds. -/
def readBytes (buf : List Nat) : Nat → Nat → Option (List Nat)
  | _, 0 => some []
  | off, n + 1 =>
    match buf.get? off, readBytes buf (off + 1) n with
    | some b, some rest => some (b :: rest)
    | _, _ => none

/-- The packed FW_DEPENDENCY entry: FmpInstance GUID (as its 16 raw bytes),
RequiredVersionInSystem, ImageIndex, Flags (Reserved is ignored by the code). -/
structure FW_DEPENDENCY where
  FmpInstance : List Nat
  RequiredVersionInSystem : Nat
  ImageIndex : Nat
  Flags : Nat
deriving DecidableEq

/-- Decode the FW_DEPENDENCY entry at a byte offset (GUID at +0,
RequiredVersionInSystem at +16, ImageIndex at +20, Flags at +22). -/
def decodeDep (buf : List Nat) (off : Nat) : Option FW_DEPENDENCY :=
  match readBytes buf off 16, readU32 buf (off + 16), readU8 buf (off + 20),
      readU16 buf (off + 22) with
  | some g, some rv, some ii, some fl => some ⟨g, rv, ii, fl⟩
  | _, _, _, _ => none

/-- The Component Resolver collaborator (GetFmpAndDescriptor): GUID bytes and
image index to either ok (current version, descriptor allocated) or error
(an EFI_STATUS, descriptor pointer left unchanged). -/
def Resolver : Type := List Nat → Nat → Except Nat Nat

/-- Evaluator state threaded through the dependency walk: number of resolver
invocations, number of successful descriptor acquisitions, and the current
FmpDesc pointer contents (none = NULL, some v = descriptor with Version v). -/
structure DepState where
  calls : Nat
  acq : Nat
  fmpDesc : Option Nat
deriving DecidableEq

/-- Result of VerifyFmpPayloadDependencies: the returned EFI_STATUS, the final
contents of the Verified slot, the resolver call count, the successful
acquisition count, and the number of FreePool releases performed. -/
structure VResult where
  status : Nat
  verified : Option Bool
  calls : Nat
  acq : Nat
  freed : Nat
deriving DecidableEq

/-- The while loop of VerifyFmpPayloadDependencies (lines 269-323): walk
NumberOfDeps entries from a byte offset.  slotNull records whether the Verified
pointer is NULL (a write through it is undefined behaviour, none).  Returns
Sum.inl (status, state) for a goto EXIT taken after writing FALSE, and
Sum.inr (status, state) when the loop runs to completion (status is the value
of the Status variable at that point, threaded exactly as the C code leaves it:
a non-required failed resolution keeps the resolver's error in Status). -/
def walkDeps (resolver : Resolver) (buf : List Nat) (slotNull : Bool) :
    Nat → Nat → Nat → DepState → Option ((Nat × DepState) ⊕ (Nat × DepState))
  | 0, _, status, st => some (Sum.inr (status, st))
  | n + 1, off, _, st =>
    match readBytes buf off 16 with
    | none => none
    | some g =>
      match readU8 buf (off + 20) with
      | none => none
      | some ii =>
        match resolver g ii with
        | Except.error e =>
          if 2 ^ 63 ≤ e then
            match readU16 buf (off + 22) with
            | none => none
            | some fl =>
              if fl &&& 1 = 1 then
                if slotNull then none
                else some (Sum.inl (EFI_SUCCESS, ⟨st.calls + 1, st.acq, st.fmpDesc⟩))
              else walkDeps resolver buf slotNull n (off + 24) e
                ⟨st.calls + 1, st.acq, st.fmpDesc⟩
          else
            match readU32 buf (off + 16), st.fmpDesc with
            | some rv, some dv =>
              if dv < rv then
                if slotNull then none
                else some (Sum.inl (EFI_SUCCESS, ⟨st.calls + 1, st.acq, st.fmpDesc⟩))
              else
                match readU16 buf (off + 22) with
                | none => none
                | some fl =>
                  if fl &&& 2 = 2 ∧ rv ≠ dv then
                    if slotNull then none
                    else some (Sum.inl (EFI_SUCCESS, ⟨st.calls + 1, st.acq, st.fmpDesc⟩))
                  else walkDeps resolver buf slotNull n (off + 24) EFI_SUCCESS
                    ⟨st.calls + 1, st.acq, st.fmpDesc⟩
            | _, _ => none
        | Except.ok v =>
          match readU32 buf (off + 16) with
          | none => none
          | some rv =>
            if v < rv then
              if slotNull then none
              else some (Sum.inl (EFI_SUCCESS, ⟨st.calls + 1, st.acq + 1, some v⟩))
            else
              match readU16 buf (off + 22) with
              | none => none
              | some fl =>
                if fl &&& 2 = 2 ∧ rv ≠ v then
                  if slotNull then none
                  else some (Sum.inl (EFI_SUCCESS, ⟨st.calls + 1, st.acq + 1, some v⟩))
                else walkDeps resolver buf slotNull n (off + 24) EFI_SUCCESS
                  ⟨st.calls + 1, st.acq + 1, some v⟩

/-- The tail of VerifyFmpPayloadDependencies after the loop: on an early goto
EXIT the FALSE write already happened inside the walk; on loop completion the
line 326 write of TRUE needs a non-NULL Verified slot.  The EXIT label frees
the descriptor still held in FmpDesc, if any (the single FreePool). -/
def finishWalk (verified : Option Bool)
    (w : Option ((Nat × DepState) ⊕ (Nat × DepState))) : Option VResult :=
  match w with
  | none => none
  | some (Sum.inl (s, st)) =>
      some ⟨s, some false, st.calls, st.acq, if st.fmpDesc.isSome then 1 else 0⟩
  | some (Sum.inr (s, st)) =>
      match verified with
      | none => none
      | some _ =>
          some ⟨s, some true, st.calls, st.acq, if st.fmpDesc.isSome then 1 else 0⟩

/-- VerifyFmpPayloadDependencies (lines 220-334).  header none models a NULL
Header pointer; verified is the contents of the Verified slot (none = NULL
pointer).  Only Header is null-checked.  The signature is read at offset 0,
DependencyBytes is the INTN difference HeaderSize - 16, and when positive,
NumberOfDeps = DependencyBytes / 24 entries are walked with no bound from any
buffer length (the function takes none). -/
def VerifyFmpPayloadDependencies (resolver : Resolver) (header : Option (List Nat))
    (verified : Option Bool) : Option VResult :=
  match header with
  | none => some ⟨EFI_INVALID_PARAMETER, verified, 0, 0, 0⟩
  | some buf =>
    match readU32 buf 0 with
    | none => none
    | some sig =>
      if sig ≠ FMP_PAYLOAD_HEADER_SIGNATURE then
        some ⟨EFI_INVALID_PARAMETER, verified, 0, 0, 0⟩
      else
        match readU32 buf 4 with
        | none => none
        | some hs =>
          let dependencyBytes : Int := (hs : Int) - 16
          if 0 < dependencyBytes then
            if dependencyBytes % 24 ≠ 0 then
              match verified with
              | none => none
              | some _ => some ⟨EFI_INVALID_PARAMETER, some false, 0, 0, 0⟩
            else
              finishWalk verified
                (walkDeps resolver buf verified.isNone (dependencyBytes / 24).toNat
                  16 EFI_SUCCESS ⟨0, 0, none⟩)
          else
            match verified with
            | none => none
            | some _ => some ⟨EFI_SUCCESS, some true, 0, 0, 0⟩

/-- GetFmpPayloadHeaderSize (lines 88-117).  addr is the UINTN value of the
Header pointer; the two pointer comparisons at lines 105-106 are modelled with
the additions reduced mod 2^64.  On success writes HeaderSize into the slot. -/
def GetFmpPayloadHeaderSize (header : Option (List Nat)) (addr : Nat)
    (fmpPayloadSize : Nat) (sizeSlot : Option Nat) : Option (Nat × Option Nat) :=
  match header, sizeSlot with
  | none, s => some (EFI_INVALID_PARAMETER, s)
  | some _, none => some (EFI_INVALID_PARAMETER, none)
  | some buf, some s0 =>
    if (addr + 16) % 2 ^ 64 < addr ∨ (addr + fmpPayloadSize) % 2 ^ 64 ≤ (addr + 16) % 2 ^ 64 then
      some (EFI_INVALID_PARAMETER, some s0)
    else
      match readU32 buf 4 with
      | none => none
      | some hs =>
        if hs < 16 then some (EFI_INVALID_PARAMETER, some s0)
        else
          match readU32 buf 0 with
          | none => none
          | some sig =>
            if sig ≠ FMP_PAYLOAD_HEADER_SIGNATURE then
              some (EFI_INVALID_PARAMETER, some s0)
            else some (EFI_SUCCESS, some hs)

/-- GetFmpPayloadHeaderVersion (lines 133-162): same checks as
GetFmpPayloadHeaderSize, writes FwVersion (offset 8) on success. -/
def GetFmpPayloadHeaderVersion (header : Option (List Nat)) (addr : Nat)
    (fmpPayloadSize : Nat) (versionSlot : Option Nat) : Option (Nat × Option Nat) :=
  match header, versionSlot with
  | none, s => some (EFI_INVALID_PARAMETER, s)
  | some _, none => some (EFI_INVALID_PARAMETER, none)
  | some buf, some s0 =>
    if (addr + 16) % 2 ^ 64 < addr ∨ (addr + fmpPayloadSize) % 2 ^ 64 ≤ (addr + 16) % 2 ^ 64 then
      some (EFI_INVALID_PARAMETER, some s0)
    else
      match readU32 buf 4 with
      | none => none
      | some hs =>
        if hs < 16 then some (EFI_INVALID_PARAMETER, some s0)
        else
          match readU32 buf 0 with
          | none => none
          | some sig =>
            if sig ≠ FMP_PAYLOAD_HEADER_SIGNATURE then
              some (EFI_INVALID_PARAMETER, some s0)
            else
              match readU32 buf 8 with
              | none => none
              | some v => some (EFI_SUCCESS, some v)

/-- GetFmpPayloadHeaderLowestSupportedVersion (lines 178-207): same checks,
writes LowestSupportedVersion (offset 12) on success. -/
def GetFmpPayloadHeaderLowestSupportedVersion (header : Option (List Nat)) (addr : Nat)
    (fmpPayloadSize : Nat) (lsvSlot : Option Nat) : Option (Nat × Option Nat) :=
  match header, lsvSlot with
  | none, s => some (EFI_INVALID_PARAMETER, s)
  | some _, none => some (EFI_INVALID_PARAMETER, none)
  | some buf, some s0 =>
    if (addr + 16) % 2 ^ 64 < addr ∨ (addr + fmpPayloadSize) % 2 ^ 64 ≤ (addr + 16) % 2 ^ 64 then
      some (EFI_INVALID_PARAMETER, some s0)
    else
      match readU32 buf 4 with
      | none => none
      | some hs =>
        if hs < 16 then some (EFI_INVALID_PARAMETER, some s0)
        else
          match readU32 buf 0 with
          | none => none
          | some sig =>
            if sig ≠ FMP_PAYLOAD_HEADER_SIGNATURE then
              some (EFI_INVALID_PARAMETER, some s0)
            else
              match readU32 buf 12 with
              | none => none
              | some v => some (EFI_SUCCESS, some v)

/-- Little-endian byte encoding of a 32-bit value. -/
def le32 (n : Nat) : List Nat :=
  [n % 256, n / 256 % 256, n / 65536 % 256, n / 16777216 % 256]

/-- Construct the 16 fixed header bytes: signature, headerSize s, firmware
version v, lowest supported version l. -/
def mkHeader (s v l : Nat) : List Nat :=
  le32 FMP_PAYLOAD_HEADER_SIGNATURE ++ le32 s ++ le32 v ++ le32 l

/-- Construct one 24-byte dependency entry from its fields. -/
def mkDep (guid : List Nat) (rv ii fl : Nat) : List Nat :=
  guid ++ le32 rv ++ [ii % 256, 0] ++ [fl % 256, fl / 256 % 256]

/-- GetFmpAndDescriptor never finds the component: fails with EFI_NOT_FOUND. -/
def nfResolver : Resolver := fun _ _ => Except.error EFI_NOT_FOUND

/-- GetFmpAndDescriptor always succeeds with descriptor version 5. -/
def okResolver : Resolver := fun _ _ => Except.ok 5

/-- A dependency entry with zero GUID, required version 0, index 0, no flags. -/
def depNoFlags : List Nat := mkDep (List.replicate 16 0) 0 0 0

/-- A dependency entry with zero GUID, required version 0, index 0, REQUIRED. -/
def depRequired : List Nat := mkDep (List.replicate 16 0) 0 0 1

example : VerifyFmpPayloadDependencies nfResolver
    (some (mkHeader 40 0 0 ++ depNoFlags)) (some false) =
    some ⟨EFI_NOT_FOUND, some true, 1, 0, 0⟩ := by decide

example : VerifyFmpPayloadDependencies okResolver
    (some (mkHeader 64 0 0 ++ depNoFlags ++ depNoFlags)) (some false) =
    some ⟨EFI_SUCCESS, some true, 2, 2, 1⟩ := by decide

example : VerifyFmpPayloadDependencies nfResolver (some (mkHeader 40 0 0)) (some true) =
    none := by decide

example : VerifyFmpPayloadDependencies nfResolver (some (mkHeader 0 0 0)) (some false) =
    some ⟨EFI_SUCCESS, some true, 0, 0, 0⟩ := by decide

example : VerifyFmpPayloadDependencies nfResolver (some (mkHeader 17 0 0)) (some true) =
    some ⟨EFI_INVALID_PARAMETER, some false, 0, 0, 0⟩ := by decide

example : VerifyFmpPayloadDependencies nfResolver (some (mkHeader 16 0 0)) none =
    none := by decide

example : GetFmpPayloadHeaderSize (some (mkHeader 16 5 0)) 0 16 (some 0) =
    some (EFI_INVALID_PARAMETER, some 0) := by decide

example : GetFmpPayloadHeaderSize (some (mkHeader 16 5 0)) 0 17 (some 0) =
    some (EFI_SUCCESS, some 16) := by decide

example : GetFmpPayloadHeaderVersion (some (mkHeader 16 5 0)) 0 17 (some 0) =
    some (EFI_SUCCESS, some 5) := by decide

/-- The per-entry failure condition of the walk, position-independent: the
resolver fails and the REQUIRED flag is set, or the resolver succeeds and the
version checks (minimum, then exact-match) reject. -/
def entryFails (resolver : Resolver) (d : FW_DEPENDENCY) : Prop :=
  match resolver d.FmpInstance d.ImageIndex with
  | Except.error _ => d.Flags &&& 1 = 1
  | Except.ok v =>
      v < d.RequiredVersionInSystem ∨ (d.Flags &&& 2 = 2 ∧ d.RequiredVersionInSystem ≠ v)

/-- Every failure status the resolver returns satisfies EFI_ERROR (bit 63 set),
as real GetFmpAndDescriptor implementations do. -/
def resolverErrorsAreErrors (resolver : Resolver) : Prop :=
  ∀ g i e, resolver g i = Except.error e → 2 ^ 63 ≤ e

theorem decodeDep_reads {buf : List Nat} {off : Nat} {d : FW_DEPENDENCY}
    (h : decodeDep buf off = some d) :
    readBytes buf off 16 = some d.FmpInstance ∧
    readU32 buf (off + 16) = some d.RequiredVersionInSystem ∧
    readU8 buf (off + 20) = some d.ImageIndex ∧
    readU16 buf (off + 22) = some d.Flags := by
  unfold decodeDep at h
  split at h
  case _ g rv ii fl hg hrv hii hfl =>
    cases h
    exact ⟨hg, hrv, hii, hfl⟩
  case _ => exact absurd h (by simp)

theorem walkDeps_step_fail {resolver : Resolver} {buf : List Nat}
    {n off status : Nat} {st : DepState} {d : FW_DEPENDENCY}
    (hd : decodeDep buf off = some d) (hre : resolverErrorsAreErrors resolver)
    (hf : entryFails resolver d) :
    ∃ a2 desc2, walkDeps resolver buf false (n + 1) off status st =
      some (Sum.inl (EFI_SUCCESS, ⟨st.calls + 1, a2, desc2⟩)) := by
  obtain ⟨hg, hrv, hii, hfl⟩ := decodeDep_reads hd
  cases hres : resolver d.FmpInstance d.ImageIndex with
  | error e =>
    have he : 2 ^ 63 ≤ e := hre _ _ _ hres
    have hflag : d.Flags &&& 1 = 1 := by
      unfold entryFails at hf; rw [hres] at hf; exact hf
    refine ⟨st.acq, st.fmpDesc, ?_⟩
    simp only [walkDeps, hg, hii, hres, hfl, if_pos he, if_pos hflag]
    simp
  | ok v =>
    have hf2 : v < d.RequiredVersionInSystem ∨
        (d.Flags &&& 2 = 2 ∧ d.RequiredVersionInSystem ≠ v) := by
      unfold entryFails at hf; rw [hres] at hf; exact hf
    refine ⟨st.acq + 1, some v, ?_⟩
    by_cases hlt : v < d.RequiredVersionInSystem
    · simp only [walkDeps, hg, hii, hres, hrv, if_pos hlt]
      simp
    · have hex : d.Flags &&& 2 = 2 ∧ d.RequiredVersionInSystem ≠ v := hf2.resolve_left hlt
      simp only [walkDeps, hg, hii, hres, hrv, hfl, if_neg hlt, if_pos hex]
      simp

theorem walkDeps_step_continue {resolver : Resolver} {buf : List Nat} {sn : Bool}
    {n off status : Nat} {st : DepState} {d : FW_DEPENDENCY}
    (hd : decodeDep buf off = some d) (hre : resolverErrorsAreErrors resolver)
    (hnf : ¬ entryFails resolver d) :
    ∃ s2 a2 desc2, walkDeps resolver buf sn (n + 1) off status st =
      walkDeps resolver buf sn n (off + 24) s2 ⟨st.calls + 1, a2, desc2⟩ := by
  obtain ⟨hg, hrv, hii, hfl⟩ := decodeDep_reads hd
  cases hres : resolver d.FmpInstance d.ImageIndex with
  | error e =>
    have he : 2 ^ 63 ≤ e := hre _ _ _ hres
    have hflag : ¬ d.Flags &&& 1 = 1 := by
      unfold entryFails at hnf; rw [hres] at hnf; exact hnf
    refine ⟨e, st.acq, st.fmpDesc, ?_⟩
    simp only [walkDeps, hg, hii, hres, hfl, if_pos he, if_neg hflag]
  | ok v =>
    have hnf2 : ¬ (v < d.RequiredVersionInSystem ∨
        (d.Flags &&& 2 = 2 ∧ d.RequiredVersionInSystem ≠ v)) := by
      unfold entryFails at hnf; rw [hres] at hnf; exact hnf
    have hA : ¬ v < d.RequiredVersionInSystem := fun h => hnf2 (Or.inl h)
    have hB : ¬ (d.Flags &&& 2 = 2 ∧ d.RequiredVersionInSystem ≠ v) :=
      fun h => hnf2 (Or.inr h)
    refine ⟨EFI_SUCCESS, st.acq + 1, some v, ?_⟩
    simp only [walkDeps, hg, hii, hres, hrv, hfl, if_neg hA, if_neg hB]

theorem walkDeps_firstFail {resolver : Resolver} {buf : List Nat}
    (hre : resolverErrorsAreErrors resolver) :
    ∀ i n off status st, i < n →
    (∀ j, j < i → ∃ d, decodeDep buf (off + 24 * j) = some d ∧
      ¬ entryFails resolver d) →
    (∃ d, decodeDep buf (off + 24 * i) = some d ∧ entryFails resolver d) →
    ∃ a2 desc2, walkDeps resolver buf false n off status st =
      some (Sum.inl (EFI_SUCCESS, ⟨st.calls + (i + 1), a2, desc2⟩)) := by
  intro i
  induction i with
  | zero =>
    intro n off status st hin _ hfail
    obtain ⟨m, rfl⟩ : ∃ m, n = m + 1 := ⟨n - 1, by omega⟩
    obtain ⟨d, hd, hf⟩ := hfail
    rw [Nat.mul_zero, Nat.add_zero] at hd
    exact walkDeps_step_fail hd hre hf
  | succ k ih =>
    intro n off status st hin hbef hfail
    obtain ⟨m, rfl⟩ : ∃ m, n = m + 1 := ⟨n - 1, by omega⟩
    obtain ⟨d0, hd0, hnf0⟩ := hbef 0 (Nat.succ_pos k)
    rw [Nat.mul_zero, Nat.add_zero] at hd0
    obtain ⟨s2, a2, desc2, hw⟩ := walkDeps_step_continue hd0 hre hnf0
    rw [hw]
    have hbef2 : ∀ j, j < k → ∃ d, decodeDep buf (off + 24 + 24 * j) = some d ∧
        ¬ entryFails resolver d := by
      intro j hj
      have hstep := hbef (j + 1) (by omega)
      have harith : off + 24 * (j + 1) = off + 24 + 24 * j := by ring
      rwa [harith] at hstep
    have hfail2 : ∃ d, decodeDep buf (off + 24 + 24 * k) = some d ∧
        entryFails resolver d := by
      have harith : off + 24 * (k + 1) = off + 24 + 24 * k := by ring
      rwa [harith] at hfail
    obtain ⟨a3, d3, hw3⟩ :=
      ih m (off + 24) s2 ⟨st.calls + 1, a2, desc2⟩ (by omega) hbef2 hfail2
    have hcalls : st.calls + 1 + (k + 1) = st.calls + (k + 1 + 1) := by omega
    rw [hcalls] at hw3
    exact ⟨a3, d3, hw3⟩

theorem walkDeps_slotNull {resolver : Resolver} {buf : List Nat} :
    ∀ n off status st, walkDeps resolver buf true n off status st = none ∨
      ∃ p, walkDeps resolver buf true n off status st = some (Sum.inr p) := by
  intro n
  induction n with
  | zero => intro off status st; right; exact ⟨(status, st), rfl⟩
  | succ m ih =>
    intro off status st
    simp only [walkDeps]
    split
    · left; rfl
    · split
      · left; rfl
      · split
        · split
          · split
            · left; rfl
            · split
              · left; simp
              · exact ih _ _ _
          · split
            · split
              · left; simp
              · split
                · left; rfl
                · split
                  · left; simp
                  · exact ih _ _ _
            · left; rfl
        · split
          · left; rfl
          · split
            · left; simp
            · split
              · left; rfl
              · split
                · left; simp
                · exact ih _ _ _

theorem VerifyFmpPayloadDependencies_walk {resolver : Resolver} {buf : List Nat}
    {slot : Option Bool} {n : Nat}
    (hsig : readU32 buf 0 = some FMP_PAYLOAD_HEADER_SIGNATURE)
    (hhs : readU32 buf 4 = some (16 + 24 * n)) (hn : 0 < n) :
    VerifyFmpPayloadDependencies resolver (some buf) slot =
      finishWalk slot
        (walkDeps resolver buf slot.isNone n 16 EFI_SUCCESS ⟨0, 0, none⟩) := by
  simp only [VerifyFmpPayloadDependencies, hsig, hhs]
  have h1 : ((16 + 24 * n : Nat) : Int) - 16 = 24 * (n : Int) := by push_cast; ring
  simp only [ne_eq, h1]
  have h2 : (0 : Int) < 24 * (n : Int) := by positivity
  have h3 : (24 * (n : Int)) % 24 = 0 := Int.mul_emod_right 24 n
  have h4 : ((24 * (n : Int)) / 24).toNat = n := by omega
  simp [h2, h3, h4]

theorem verify_nullHeader (resolver : Resolver) (slot : Option Bool) :
    VerifyFmpPayloadDependencies resolver none slot =
      some ⟨EFI_INVALID_PARAMETER, slot, 0, 0, 0⟩ := rfl

theorem verify_sigMismatch {resolver : Resolver} {buf : List Nat}
    {slot : Option Bool} {sig : Nat} (h0 : readU32 buf 0 = some sig)
    (hne : sig ≠ FMP_PAYLOAD_HEADER_SIGNATURE) :
    VerifyFmpPayloadDependencies resolver (some buf) slot =
      some ⟨EFI_INVALID_PARAMETER, slot, 0, 0, 0⟩ := by
  simp only [VerifyFmpPayloadDependencies, h0]
  simp [hne]

theorem verify_remainder_writesFalse {resolver : Resolver} {buf : List Nat}
    {b : Bool} {hs : Nat}
    (hsig : readU32 buf 0 = some FMP_PAYLOAD_HEADER_SIGNATURE)
    (hhs : readU32 buf 4 = some hs) (h16 : 16 < hs)
    (hrem : (hs - 16) % 24 ≠ 0) :
    VerifyFmpPayloadDependencies resolver (some buf) (some b) =
      some ⟨EFI_INVALID_PARAMETER, some false, 0, 0, 0⟩ := by
  simp only [VerifyFmpPayloadDependencies, hsig, hhs]
  have h1 : (0 : Int) < (hs : Int) - 16 := by omega
  have h2 : ¬ ((hs : Int) - 16) % 24 = 0 := by omega
  simp [h1, h2]

theorem getSize_invalid_unchanged (hdr : Option (List Nat)) (addr ps : Nat)
    (slot : Option Nat) (st : Nat) (slot2 : Option Nat)
    (h : GetFmpPayloadHeaderSize hdr addr ps slot = some (st, slot2))
    (hst : st = EFI_INVALID_PARAMETER) : slot2 = slot := by
  subst hst
  rcases hdr with _ | buf
  · simp only [GetFmpPayloadHeaderSize, Option.some.injEq, Prod.mk.injEq] at h
    exact h.2.symm
  · rcases slot with _ | s0
    · simp only [GetFmpPayloadHeaderSize, Option.some.injEq, Prod.mk.injEq] at h
      exact h.2.symm
    · simp only [GetFmpPayloadHeaderSize] at h
      repeat' split at h
      all_goals
        first
          | exact Option.noConfusion h
          | (simp only [Option.some.injEq, Prod.mk.injEq] at h
             first
               | exact h.2.symm
               | exact absurd h.1 (by decide))

theorem getVersion_invalid_unchanged (hdr : Option (List Nat)) (addr ps : Nat)
    (slot : Option Nat) (st : Nat) (slot2 : Option Nat)
    (h : GetFmpPayloadHeaderVersion hdr addr ps slot = some (st, slot2))
    (hst : st = EFI_INVALID_PARAMETER) : slot2 = slot := by
  subst hst
  rcases hdr with _ | buf
  · simp only [GetFmpPayloadHeaderVersion, Option.some.injEq, Prod.mk.injEq] at h
    exact h.2.symm
  · rcases slot with _ | s0
    · simp only [GetFmpPayloadHeaderVersion, Option.some.injEq, Prod.mk.injEq] at h
      exact h.2.symm
    · simp only [GetFmpPayloadHeaderVersion] at h
      repeat' split at h
      all_goals
        first
          | exact Option.noConfusion h
          | (simp only [Option.some.injEq, Prod.mk.injEq] at h
             first
               | exact h.2.symm
               | exact absurd h.1 (by decide))

theorem getLSV_invalid_unchanged (hdr : Option (List Nat)) (addr ps : Nat)
    (slot : Option Nat) (st : Nat) (slot2 : Option Nat)
    (h : GetFmpPayloadHeaderLowestSupportedVersion hdr addr ps slot = some (st, slot2))
    (hst : st = EFI_INVALID_PARAMETER) : slot2 = slot := by
  subst hst
  rcases hdr with _ | buf
  · simp only [GetFmpPayloadHeaderLowestSupportedVersion, Option.some.injEq,
      Prod.mk.injEq] at h
    exact h.2.symm
  · rcases slot with _ | s0
    · simp only [GetFmpPayloadHeaderLowestSupportedVersion, Option.some.injEq,
        Prod.mk.injEq] at h
      exact h.2.symm
    · simp only [GetFmpPayloadHeaderLowestSupportedVersion] at h
      repeat' split at h
      all_goals
        first
          | exact Option.noConfusion h
          | (simp only [Option.some.injEq, Prod.mk.injEq] at h
             first
               | exact h.2.symm
               | exact absurd h.1 (by decide))

theorem readU32_mkHeader_0 (S V L : Nat) :
    readU32 (mkHeader S V L) 0 = some FMP_PAYLOAD_HEADER_SIGNATURE := rfl

theorem readU32_mkHeader_4 (S V L : Nat) (h : S < 2 ^ 32) :
    readU32 (mkHeader S V L) 4 = some S := by
  have he : readU32 (mkHeader S V L) 4 =
      some (S % 256 + 256 * (S / 256 % 256) + 65536 * (S / 65536 % 256) +
        16777216 * (S / 16777216 % 256)) := rfl
  rw [he]
  congr 1
  omega

theorem readU32_mkHeader_8 (S V L : Nat) (h : V < 2 ^ 32) :
    readU32 (mkHeader S V L) 8 = some V := by
  have he : readU32 (mkHeader S V L) 8 =
      some (V % 256 + 256 * (V / 256 % 256) + 65536 * (V / 65536 % 256) +
        16777216 * (V / 16777216 % 256)) := rfl
  rw [he]
  congr 1
  omega

/-- C1: VerifyFmpPayloadDependencies takes no buffer-length parameter and never
checks HeaderSize against any bound: on the 16-byte valid-signature buffer whose
HeaderSize field claims 40 bytes, the walk is sized (40 - 16) / 24 = 1 entry by
the untrusted field alone, and the entry read past the end of the buffer (the
out-of-bounds error branch, none) is reached for every resolver. -/
theorem verifyDeps_unboundedHeaderSize_oobReachable :
    (∀ resolver : Resolver,
      VerifyFmpPayloadDependencies resolver (some (mkHeader 40 0 0)) (some true) =
        none) ∧
    (mkHeader 40 0 0).length = 16 ∧
    readU32 (mkHeader 40 0 0) 0 = some FMP_PAYLOAD_HEADER_SIGNATURE := by
  refine ⟨?_, by decide, by decide⟩
  intro resolver
  have h0 : readU32 (mkHeader 40 0 0) 0 = some FMP_PAYLOAD_HEADER_SIGNATURE := by
    decide
  have h4 : readU32 (mkHeader 40 0 0) 4 = some (16 + 24 * 1) := by decide
  rw [VerifyFmpPayloadDependencies_walk h0 h4 (by decide)]
  have hrb : readBytes (mkHeader 40 0 0) 16 16 = none := by decide
  have hw : walkDeps resolver (mkHeader 40 0 0) (some true : Option Bool).isNone
      (0 + 1) 16 EFI_SUCCESS ⟨0, 0, none⟩ = none := by
    simp only [walkDeps, hrb]
  rw [show (1 : Nat) = 0 + 1 from rfl, hw]
  rfl

/-- C2 counterexample: on the valid-signature buffer whose HeaderSize field is 0
(dependencyBytes = -16 < 0), VerifyFmpPayloadDependencies returns EFI_SUCCESS
with the Verified slot set to TRUE, not EFI_INVALID_PARAMETER: the claim that a
negative dependency size is treated as structurally invalid is false. -/
theorem verifyDeps_negDepBytes_counterexample :
    VerifyFmpPayloadDependencies nfResolver (some (mkHeader 0 0 0)) (some false) =
      some ⟨EFI_SUCCESS, some true, 0, 0, 0⟩ ∧
    EFI_SUCCESS ≠ EFI_INVALID_PARAMETER := by decide

/-- C2 amended: for every valid-signature buffer whose headerSize field is
strictly below the 16-byte fixed header size, VerifyFmpPayloadDependencies
skips the dependency walk (DependencyBytes not > 0) and returns EFI_SUCCESS
with the verdict satisfied (TRUE), with no resolver call. -/
theorem verifyDeps_negDepBytes_success {resolver : Resolver} {buf : List Nat}
    {b : Bool} {hs : Nat}
    (hsig : readU32 buf 0 = some FMP_PAYLOAD_HEADER_SIGNATURE)
    (hhs : readU32 buf 4 = some hs) (hlt : hs < 16) :
    VerifyFmpPayloadDependencies resolver (some buf) (some b) =
      some ⟨EFI_SUCCESS, some true, 0, 0, 0⟩ := by
  simp only [VerifyFmpPayloadDependencies, hsig, hhs]
  have h1 : ¬ (0 : Int) < (hs : Int) - 16 := by omega
  simp [h1]

/-- C2 amended, witness at HeaderSize = 0. -/
theorem verifyDeps_negDepBytes_success_witness :
    VerifyFmpPayloadDependencies okResolver (some (mkHeader 0 0 0)) (some true) =
      some ⟨EFI_SUCCESS, some true, 0, 0, 0⟩ :=
  verifyDeps_negDepBytes_success (by decide)
    (show readU32 (mkHeader 0 0 0) 4 = some 0 by decide) (by decide)

/-- C3: on a structurally well-formed payload whose single (hence last) entry
is vacuously satisfied (REQUIRED not set, resolver fails with EFI_NOT_FOUND),
VerifyFmpPayloadDependencies sets Verified = TRUE but returns the resolver's
error status EFI_NOT_FOUND instead of EFI_SUCCESS: the Status variable set by
the failed GetFmpAndDescriptor call (line 271) is never reset on the vacuous
path, so the loop exits with it — contradicting the claimed (and documented)
success result for a satisfied verdict. -/
theorem verifyDeps_vacuousLast_returnsResolverError :
    VerifyFmpPayloadDependencies nfResolver
      (some (mkHeader 40 0 0 ++ depNoFlags)) (some false) =
      some ⟨EFI_NOT_FOUND, some true, 1, 0, 0⟩ ∧
    EFI_NOT_FOUND ≠ EFI_SUCCESS := by decide

/-- C4 counterexample: on the valid-signature buffer with HeaderSize = 17
(dependency region of 1 byte, not a multiple of 24), VerifyFmpPayloadDependencies
returns EFI_INVALID_PARAMETER yet writes FALSE into the Verified slot (line 261
precedes the return), changing it from its prior TRUE: a structural error with
output written. -/
theorem verifyDeps_invalidWritesOutput_counterexample :
    VerifyFmpPayloadDependencies nfResolver (some (mkHeader 17 0 0)) (some true) =
      some ⟨EFI_INVALID_PARAMETER, some false, 0, 0, 0⟩ ∧
    (some false : Option Bool) ≠ some true := by decide

/-- C4 amended: every EFI_INVALID_PARAMETER return of the three accessors
leaves the output slot unchanged, and the null-header and signature-mismatch
EFI_INVALID_PARAMETER returns of VerifyFmpPayloadDependencies leave the
Verified slot unchanged; but the dependency-region-size error of
VerifyFmpPayloadDependencies writes FALSE into Verified before returning
EFI_INVALID_PARAMETER. -/
theorem structuralErrors_output_behaviour :
    (∀ hdr addr ps slot st slot2,
      GetFmpPayloadHeaderSize hdr addr ps slot = some (st, slot2) →
      st = EFI_INVALID_PARAMETER → slot2 = slot) ∧
    (∀ hdr addr ps slot st slot2,
      GetFmpPayloadHeaderVersion hdr addr ps slot = some (st, slot2) →
      st = EFI_INVALID_PARAMETER → slot2 = slot) ∧
    (∀ hdr addr ps slot st slot2,
      GetFmpPayloadHeaderLowestSupportedVersion hdr addr ps slot = some (st, slot2) →
      st = EFI_INVALID_PARAMETER → slot2 = slot) ∧
    (∀ (resolver : Resolver) (slot : Option Bool),
      VerifyFmpPayloadDependencies resolver none slot =
        some ⟨EFI_INVALID_PARAMETER, slot, 0, 0, 0⟩) ∧
    (∀ (resolver : Resolver) (buf : List Nat) (slot : Option Bool) (sig : Nat),
      readU32 buf 0 = some sig → sig ≠ FMP_PAYLOAD_HEADER_SIGNATURE →
      VerifyFmpPayloadDependencies resolver (some buf) slot =
        some ⟨EFI_INVALID_PARAMETER, slot, 0, 0, 0⟩) ∧
    (∀ (resolver : Resolver) (buf : List Nat) (b : Bool) (hs : Nat),
      readU32 buf 0 = some FMP_PAYLOAD_HEADER_SIGNATURE →
      readU32 buf 4 = some hs → 16 < hs → (hs - 16) % 24 ≠ 0 →
      VerifyFmpPayloadDependencies resolver (some buf) (some b) =
        some ⟨EFI_INVALID_PARAMETER, some false, 0, 0, 0⟩) := by
  refine ⟨getSize_invalid_unchanged, getVersion_invalid_unchanged,
    getLSV_invalid_unchanged, verify_nullHeader, ?_, ?_⟩
  · intro resolver buf slot sig h0 hne
    exact verify_sigMismatch h0 hne
  · intro resolver buf b hs hsig hhs h16 hrem
    exact verify_remainder_writesFalse hsig hhs h16 hrem

/-- C5: for every buffer with a valid signature whose dependency region size
(headerSize - 16) is positive and not a multiple of 24,
VerifyFmpPayloadDependencies returns EFI_INVALID_PARAMETER with a FALSE
verdict, for every resolver and with zero resolver calls (the verdict does not
depend on entry contents or the Component Resolver). -/
theorem verifyDeps_badRemainder_invalid {resolver : Resolver} {buf : List Nat}
    {b : Bool} {hs : Nat}
    (hsig : readU32 buf 0 = some FMP_PAYLOAD_HEADER_SIGNATURE)
    (hhs : readU32 buf 4 = some hs) (h16 : 16 < hs)
    (hrem : (hs - 16) % 24 ≠ 0) :
    VerifyFmpPayloadDependencies resolver (some buf) (some b) =
      some ⟨EFI_INVALID_PARAMETER, some false, 0, 0, 0⟩ :=
  verify_remainder_writesFalse hsig hhs h16 hrem

/-- C5 witness at HeaderSize = 41 (25 dependency bytes, 25 % 24 = 1). -/
theorem verifyDeps_badRemainder_invalid_witness :
    VerifyFmpPayloadDependencies okResolver (some (mkHeader 41 0 0)) (some true) =
      some ⟨EFI_INVALID_PARAMETER, some false, 0, 0, 0⟩ :=
  verifyDeps_badRemainder_invalid (by decide)
    (show readU32 (mkHeader 41 0 0) 4 = some 41 by decide) (by decide) (by decide)

/-- C6: for every structurally well-formed payload (valid signature, HeaderSize
= 16 + 24n, all n entries decodable) containing an entry whose REQUIRED flag is
set and for which the Component Resolver fails, VerifyFmpPayloadDependencies
returns the success status EFI_SUCCESS with the verdict FALSE (not an error):
the walk stops at the first failing entry, which exists because the
required-and-absent entry fails. -/
theorem verifyDeps_requiredAbsent_successFalse {resolver : Resolver}
    {buf : List Nat} {b : Bool} {n : Nat}
    (hre : resolverErrorsAreErrors resolver)
    (hsig : readU32 buf 0 = some FMP_PAYLOAD_HEADER_SIGNATURE)
    (hhs : readU32 buf 4 = some (16 + 24 * n))
    (hall : ∀ j, j < n → ∃ d, decodeDep buf (16 + 24 * j) = some d)
    (hreq : ∃ i, i < n ∧ ∃ d, decodeDep buf (16 + 24 * i) = some d ∧
      d.Flags &&& 1 = 1 ∧ ∃ e, resolver d.FmpInstance d.ImageIndex = Except.error e) :
    ∃ c a f, VerifyFmpPayloadDependencies resolver (some buf) (some b) =
      some ⟨EFI_SUCCESS, some false, c, a, f⟩ := by
  classical
  obtain ⟨i0, hi0, d0, hd0, hflag0, e0, he0⟩ := hreq
  have hex : ∃ i, i < n ∧ ∃ d, decodeDep buf (16 + 24 * i) = some d ∧
      entryFails resolver d := by
    refine ⟨i0, hi0, d0, hd0, ?_⟩
    unfold entryFails
    rw [he0]
    exact hflag0
  obtain ⟨hkn, dk, hdk, hfk⟩ := Nat.find_spec hex
  have hbef : ∀ j, j < Nat.find hex → ∃ d, decodeDep buf (16 + 24 * j) = some d ∧
      ¬ entryFails resolver d := by
    intro j hj
    have hjn : j < n := by omega
    obtain ⟨d, hd⟩ := hall j hjn
    exact ⟨d, hd, fun hf => Nat.find_min hex hj ⟨hjn, d, hd, hf⟩⟩
  obtain ⟨a2, d2, hw⟩ := walkDeps_firstFail hre (Nat.find hex) n 16 EFI_SUCCESS
    ⟨0, 0, none⟩ hkn hbef ⟨dk, hdk, hfk⟩
  rw [VerifyFmpPayloadDependencies_walk hsig hhs (by omega)]
  refine ⟨Nat.find hex + 1, a2, if d2.isSome then 1 else 0, ?_⟩
  have hiso : (some b : Option Bool).isNone = false := rfl
  rw [hiso, hw]
  simp [finishWalk]

/-- C6 witness: one REQUIRED entry, resolver always fails with EFI_NOT_FOUND. -/
theorem verifyDeps_requiredAbsent_successFalse_witness :
    ∃ c a f, VerifyFmpPayloadDependencies nfResolver
      (some (mkHeader 40 0 0 ++ depRequired)) (some true) =
      some ⟨EFI_SUCCESS, some false, c, a, f⟩ :=
  verifyDeps_requiredAbsent_successFalse (n := 1)
    (by intro g i e h; simp only [nfResolver] at h; cases h; decide)
    (by decide) (by decide)
    (by
      intro j hj
      have hj0 : j = 0 := by omega
      subst hj0
      exact ⟨⟨List.replicate 16 0, 0, 0, 1⟩, by decide⟩)
    ⟨0, by decide, ⟨List.replicate 16 0, 0, 0, 1⟩, by decide, by decide,
      EFI_NOT_FOUND, rfl⟩

/-- C7: VerifyFmpPayloadDependencies short-circuits at the first failing entry:
if entries 0..i-1 all pass (or are vacuously satisfied) and entry i fails
(required-and-absent, version below threshold, or exact-match mismatch), the
resolver is called exactly i + 1 times — never for an entry after the first
failing one — the verdict is FALSE and the status is EFI_SUCCESS. -/
theorem verifyDeps_shortCircuit_firstFailure {resolver : Resolver}
    {buf : List Nat} {b : Bool} {n i : Nat}
    (hre : resolverErrorsAreErrors resolver)
    (hsig : readU32 buf 0 = some FMP_PAYLOAD_HEADER_SIGNATURE)
    (hhs : readU32 buf 4 = some (16 + 24 * n)) (hin : i < n)
    (hbef : ∀ j, j < i → ∃ d, decodeDep buf (16 + 24 * j) = some d ∧
      ¬ entryFails resolver d)
    (hfail : ∃ d, decodeDep buf (16 + 24 * i) = some d ∧ entryFails resolver d) :
    ∃ a f, VerifyFmpPayloadDependencies resolver (some buf) (some b) =
      some ⟨EFI_SUCCESS, some false, i + 1, a, f⟩ := by
  obtain ⟨a2, d2, hw⟩ := walkDeps_firstFail hre i n 16 EFI_SUCCESS ⟨0, 0, none⟩
    hin hbef hfail
  rw [VerifyFmpPayloadDependencies_walk hsig hhs (by omega)]
  refine ⟨a2, if d2.isSome then 1 else 0, ?_⟩
  have hiso : (some b : Option Bool).isNone = false := rfl
  rw [hiso, hw]
  simp [finishWalk]

/-- C7 witness: two entries, the first (REQUIRED, resolver fails) fails, the
second would pass; exactly one resolver call is made. -/
theorem verifyDeps_shortCircuit_firstFailure_witness :
    ∃ a f, VerifyFmpPayloadDependencies nfResolver
      (some (mkHeader 64 0 0 ++ depRequired ++ depNoFlags)) (some true) =
      some ⟨EFI_SUCCESS, some false, 1, a, f⟩ := by
  apply verifyDeps_shortCircuit_firstFailure (n := 2) (i := 0)
  · intro g i e h
    simp only [nfResolver] at h
    cases h
    decide
  · decide
  · decide
  · omega
  · intro j hj
    exact absurd hj (by omega)
  · refine ⟨⟨List.replicate 16 0, 0, 0, 1⟩, by decide, ?_⟩
    have hx : (1 : Nat) &&& 1 = 1 := by decide
    exact hx

/-- C8 counterexample: the valid-signature 16-byte header with a NULL Verified
slot does not produce EFI_INVALID_PARAMETER: the function proceeds past its
only null check (Header) and dereferences the NULL Verified pointer at the
line 326 write (undefined behaviour, none), while the same header with a
non-null slot runs to success — so no null-Verified rejection exists. -/
theorem verifyDeps_nullVerified_counterexample :
    VerifyFmpPayloadDependencies nfResolver (some (mkHeader 16 0 0)) none = none ∧
    VerifyFmpPayloadDependencies nfResolver (some (mkHeader 16 0 0)) (some false) =
      some ⟨EFI_SUCCESS, some true, 0, 0, 0⟩ := by decide

/-- C8 amended: VerifyFmpPayloadDependencies null-checks only Header; with a
NULL Verified slot and any valid-signature buffer, every execution path either
ends in a write through the NULL pointer or an out-of-bounds read (undefined
behaviour, none) — never an EFI_INVALID_PARAMETER rejection for the slot. -/
theorem verifyDeps_nullVerified_ub {resolver : Resolver} {buf : List Nat}
    (hsig : readU32 buf 0 = some FMP_PAYLOAD_HEADER_SIGNATURE) :
    VerifyFmpPayloadDependencies resolver (some buf) none = none := by
  cases h4 : readU32 buf 4 with
  | none =>
    simp only [VerifyFmpPayloadDependencies, hsig, h4]
    simp
  | some hs =>
    simp only [VerifyFmpPayloadDependencies, hsig, h4]
    by_cases h1 : (0 : Int) < (hs : Int) - 16
    · by_cases h2 : ((hs : Int) - 16) % 24 = 0
      · simp only [ne_eq, not_true_eq_false, if_false, h1, if_true, h2,
          not_false_eq_true, Option.isNone_none]
        rcases @walkDeps_slotNull resolver buf
            (((hs : Int) - 16) / 24).toNat 16 EFI_SUCCESS ⟨0, 0, none⟩ with
          hnone | ⟨⟨ps, pst⟩, hp⟩
        · simp [h1, h2, hnone, finishWalk]
        · simp [h1, h2, hp, finishWalk]
      · simp [h1, h2]
    · simp [h1]

/-- C8 amended, witness: HeaderSize 24 (8 dependency bytes, remainder branch)
with a NULL Verified slot ends in the NULL write, none. -/
theorem verifyDeps_nullVerified_ub_witness :
    VerifyFmpPayloadDependencies okResolver (some (mkHeader 24 0 0)) none = none :=
  verifyDeps_nullVerified_ub (by decide)

/-- C9 counterexample: the round-trip fails at S = 16 exactly: a buffer
constructed as the 16-byte header with headerSize field 16 and version 5, read
with its own size (fmpPayloadSize = 16) as declared payload size, is rejected
with EFI_INVALID_PARAMETER by both accessors, because the line 106 bounds check
requires the end of the fixed header to lie strictly inside the payload. -/
theorem roundTrip_fixedSize_counterexample :
    GetFmpPayloadHeaderSize (some (mkHeader 16 5 0)) 0 16 (some 0) =
      some (EFI_INVALID_PARAMETER, some 0) ∧
    GetFmpPayloadHeaderVersion (some (mkHeader 16 5 0)) 0 16 (some 0) =
      some (EFI_INVALID_PARAMETER, some 0) ∧
    EFI_INVALID_PARAMETER ≠ EFI_SUCCESS := by decide

/-- C9 amended: the round-trip holds for every S with 16 ≤ S < 2^32 and every
V < 2^32 provided the declared payload size is strictly greater than the
16-byte fixed header and the address arithmetic does not wrap: the constructed
header yields GetFmpPayloadHeaderSize = success with S and
GetFmpPayloadHeaderVersion = success with V. -/
theorem roundTrip_strictPayloadSize {S V L addr P s0 v0 : Nat}
    (hS : 16 ≤ S) (hS2 : S < 2 ^ 32) (hV : V < 2 ^ 32) (hP : 16 < P)
    (haddr : addr + P < 2 ^ 64) :
    GetFmpPayloadHeaderSize (some (mkHeader S V L)) addr P (some s0) =
      some (EFI_SUCCESS, some S) ∧
    GetFmpPayloadHeaderVersion (some (mkHeader S V L)) addr P (some v0) =
      some (EFI_SUCCESS, some V) := by
  have h0 := readU32_mkHeader_0 S V L
  have h4 := readU32_mkHeader_4 S V L hS2
  have h8 := readU32_mkHeader_8 S V L hV
  have e1 : (addr + 16) % 2 ^ 64 = addr + 16 := Nat.mod_eq_of_lt (by omega)
  have e2 : (addr + P) % 2 ^ 64 = addr + P := Nat.mod_eq_of_lt (by omega)
  have hc : ¬ ((addr + 16) % 2 ^ 64 < addr ∨
      (addr + P) % 2 ^ 64 ≤ (addr + 16) % 2 ^ 64) := by
    rw [e1, e2]
    omega
  have hlt : ¬ S < 16 := by omega
  constructor
  · simp only [GetFmpPayloadHeaderSize]
    rw [if_neg hc]
    simp [h4, hlt, h0]
  · simp only [GetFmpPayloadHeaderVersion]
    rw [if_neg hc]
    simp [h4, hlt, h0, h8]

/-- C9 amended, witness at S = 16, V = 7, payload size 17, address 0. -/
theorem roundTrip_strictPayloadSize_witness :
    GetFmpPayloadHeaderSize (some (mkHeader 16 7 0)) 0 17 (some 3) =
      some (EFI_SUCCESS, some 16) ∧
    GetFmpPayloadHeaderVersion (some (mkHeader 16 7 0)) 0 17 (some 3) =
      some (EFI_SUCCESS, some 7) :=
  roundTrip_strictPayloadSize (by decide) (by decide) (by decide) (by decide)
    (by decide)

/-- C10: the descriptor acquired per entry is NOT released before advancing:
on a well-formed two-entry payload where both entries resolve successfully and
pass, two descriptors are acquired but only one FreePool happens (at the shared
EXIT label, for the descriptor still held); with a single entry the counts
match (1 acquisition, 1 release), showing the leak is exactly the overwritten
earlier descriptor: releases do not equal acquisitions. -/
theorem verifyDeps_descriptorLeak :
    VerifyFmpPayloadDependencies okResolver
      (some (mkHeader 64 0 0 ++ depNoFlags ++ depNoFlags)) (some false) =
      some ⟨EFI_SUCCESS, some true, 2, 2, 1⟩ ∧
    VerifyFmpPayloadDependencies okResolver
      (some (mkHeader 40 0 0 ++ depNoFlags)) (some false) =
      some ⟨EFI_SUCCESS, some true, 1, 1, 1⟩ ∧
    (1 : Nat) ≠ 2 := by decide
